import Mathlib

/-!
Verification of the LinkedIn AI Reply Assistant core against its
natural-language specification.

The TypeScript sources are shallowly embedded:
* `chrome.storage` (sync scope holding the `settings` record, local scope
  holding the `usage` record) becomes an explicit `Store` value threaded
  through every operation; an operation that in the source calls
  `chrome.storage.*.set` returns an updated `Store`, one that only reads
  returns the input `Store` unchanged.
* Timestamps (`Date.now()`, `resetDate`) are naturals counting milliseconds;
  the current time is an explicit `now` argument.
* JavaScript numbers held in settings / usage records are `Int` (they come
  from `parseInt` and arithmetic on integers in the source).
* `throw new Error(msg)` / normal return becomes `Except String`.
* The external generator (`callGeminiAPI`) and the text sanitizer
  (`sanitizePostText`, both in the repository's `utils/api.ts`, which is not
  part of the analysed sources) are opaque parameters of the handler.
-/

namespace AiReply

/-- `UserSettings` from `types/index.ts`.  The `tone` and `defaultAction`
unions are runtime strings in JavaScript, so they are embedded as `String`
(validation checks membership in the allowed lists, as the source does). -/
structure UserSettings where
  apiKey : String
  tone : String
  maxLength : Int
  defaultAction : String
  rateLimit : Int
  stealthMode : Bool
deriving Repr, DecidableEq

/-- `DEFAULT_SETTINGS` from `types/index.ts`. -/
def DEFAULT_SETTINGS : UserSettings :=
  { apiKey := ""
    tone := "professional"
    maxLength := 500
    defaultAction := "insert"
    rateLimit := 50
    stealthMode := true }

/-- TypeScript `Partial<UserSettings>`: what `chrome.storage.sync` may hold
under the `settings` key — any subset of the fields may be present. -/
structure PartialSettings where
  apiKey : Option String := none
  tone : Option String := none
  maxLength : Option Int := none
  defaultAction : Option String := none
  rateLimit : Option Int := none
  stealthMode : Option Bool := none
deriving Repr, DecidableEq

/-- View a full settings record as a stored record with every field present
(this is what `chrome.storage.sync.set({ settings })` writes). -/
def UserSettings.toPartial (u : UserSettings) : PartialSettings :=
  { apiKey := some u.apiKey
    tone := some u.tone
    maxLength := some u.maxLength
    defaultAction := some u.defaultAction
    rateLimit := some u.rateLimit
    stealthMode := some u.stealthMode }

/-- The JavaScript spread `{ ...DEFAULT_SETTINGS, ...stored }`: a field
present in the stored record wins, a missing field falls back to the
default. -/
def mergeDefaults (p : PartialSettings) : UserSettings :=
  { apiKey := p.apiKey.getD DEFAULT_SETTINGS.apiKey
    tone := p.tone.getD DEFAULT_SETTINGS.tone
    maxLength := p.maxLength.getD DEFAULT_SETTINGS.maxLength
    defaultAction := p.defaultAction.getD DEFAULT_SETTINGS.defaultAction
    rateLimit := p.rateLimit.getD DEFAULT_SETTINGS.rateLimit
    stealthMode := p.stealthMode.getD DEFAULT_SETTINGS.stealthMode }

/-- `UsageData` from `types/index.ts`. -/
structure UsageData where
  count : Int
  resetDate : Nat
  limit : Int
deriving Repr, DecidableEq

/-- The two `chrome.storage` scopes.  `localGetFails` models
`chrome.storage.local.get` throwing (the `catch` branch of `getUsage`);
writes are modelled as infallible. -/
structure Store where
  settings : Option PartialSettings
  usage : Option UsageData
  localGetFails : Bool
deriving Repr, DecidableEq

/-- 24 hours in milliseconds (`24 * 60 * 60 * 1000`). -/
def dayMs : Nat := 24 * 60 * 60 * 1000

/-- `getSettings` from `utils/storage.ts`: read the stored settings and merge
them over the defaults; on a missing record (spread of `undefined`) or a
storage error the result is the defaults. -/
def getSettings (s : Store) : UserSettings :=
  match s.settings with
  | none => DEFAULT_SETTINGS
  | some p => mergeDefaults p

/-- `getUsage` from `utils/storage.ts`: return the stored usage record; when
none exists, or the storage read throws, return a fresh default record
`{count := 0, resetDate := now + 24h, limit := DEFAULT_SETTINGS.rateLimit}`.
The source never calls `chrome.storage.local.set` here, so the store
component of the result is the input store. -/
def getUsage (now : Nat) (s : Store) : UsageData × Store :=
  if s.localGetFails then
    ({ count := 0, resetDate := now + dayMs, limit := DEFAULT_SETTINGS.rateLimit }, s)
  else
    match s.usage with
    | none =>
      ({ count := 0, resetDate := now + dayMs, limit := DEFAULT_SETTINGS.rateLimit }, s)
    | some u => (u, s)

/-- `saveUsage` from `utils/storage.ts`. -/
def saveUsage (u : UsageData) (s : Store) : Store :=
  { s with usage := some u }

/-- `resetUsageIfExpired` from `utils/storage.ts`: if `now >= resetDate` the
counter is reset to 0, the window is extended to `now + 24h`, the limit is
refreshed from the current settings, and the rolled record is persisted;
otherwise the stored record is returned untouched. -/
def resetUsageIfExpired (now : Nat) (s : Store) : UsageData × Store :=
  let (usage, s₀) := getUsage now s
  if usage.resetDate ≤ now then
    let settings := getSettings s₀
    let rolled : UsageData :=
      { count := 0, resetDate := now + dayMs, limit := settings.rateLimit }
    (rolled, saveUsage rolled s₀)
  else
    (usage, s₀)

/-- `getTimeUntilReset` from `utils/rateLimit.ts`.  In the source
`diff = resetDate - now` is a signed number and `diff <= 0` yields `"now"`;
on naturals that condition is `resetDate ≤ now`, and in the remaining branch
`diff` equals the natural subtraction. -/
def getTimeUntilReset (now resetDate : Nat) : String :=
  if resetDate ≤ now then
    "now"
  else if (resetDate - now) / (1000 * 60 * 60) > 0 then
    toString ((resetDate - now) / (1000 * 60 * 60)) ++ "h " ++
      toString ((resetDate - now) % (1000 * 60 * 60) / (1000 * 60)) ++ "m"
  else if (resetDate - now) % (1000 * 60 * 60) / (1000 * 60) > 0 then
    toString ((resetDate - now) % (1000 * 60 * 60) / (1000 * 60)) ++ "m"
  else
    toString ((resetDate - now) / 1000) ++ "s"

/-- The message of the error thrown by `trackUsage` when the limit is
reached. -/
def rateLimitMessage (now : Nat) (u : UsageData) : String :=
  "Rate limit reached. Resets in " ++ getTimeUntilReset now u.resetDate ++
    ". Current usage: " ++ toString u.count ++ "/" ++ toString u.limit

/-- `trackUsage` from `utils/rateLimit.ts`: roll the window if expired, then
deny (throw) if `count >= limit`, else increment the count and persist.  The
store component carries every write performed before the throw (a rollover
persisted by `resetUsageIfExpired` survives a subsequent denial). -/
def trackUsage (now : Nat) (s : Store) : Except String UsageData × Store :=
  let (usage, s₁) := resetUsageIfExpired now s
  if usage.limit ≤ usage.count then
    (Except.error (rateLimitMessage now usage), s₁)
  else
    let updated : UsageData := { usage with count := usage.count + 1 }
    (Except.ok updated, saveUsage updated s₁)

/-- `resetUsage` from `utils/rateLimit.ts`: manual reset — `count := 0`,
window restarted from `now`, limit kept from the stored record. -/
def resetUsage (now : Nat) (s : Store) : UsageData × Store :=
  let (usage, s₀) := getUsage now s
  let reset : UsageData :=
    { count := 0, resetDate := now + dayMs, limit := usage.limit }
  (reset, saveUsage reset s₀)

/-- `validateSettings` from `utils/validation.ts`, on a
`Partial<UserSettings>`: each check fires only when the field is present,
in the source's order; the first failure throws. -/
def validateSettings (p : PartialSettings) : Except String Unit := do
  match p.apiKey with
  | none => pure ()
  | some k =>
    if k.length > 0 && k.length < 10 then
      throw "API key appears to be invalid (too short)"
    else pure ()
  match p.tone with
  | none => pure ()
  | some t =>
    if ["polite", "professional", "friendly", "concise"].contains t then pure ()
    else throw "Invalid tone. Must be one of: polite, professional, friendly, concise"
  match p.maxLength with
  | none => pure ()
  | some n =>
    if n < 100 || n > 1000 then
      throw "Max length must be between 100 and 1000 characters"
    else pure ()
  match p.defaultAction with
  | none => pure ()
  | some a =>
    if ["insert", "copy"].contains a then pure ()
    else throw "Invalid default action. Must be one of: insert, copy"
  match p.rateLimit with
  | none => pure ()
  | some r =>
    if r < 1 || r > 10000 then
      throw "Rate limit must be between 1 and 10000"
    else pure ()

/-- `saveSettings` from `utils/storage.ts`: validate the full record, then
write it; any failure is rethrown as `Failed to save settings` and nothing
is written. -/
def saveSettings (settings : UserSettings) (s : Store) : Except String Unit × Store :=
  match validateSettings settings.toPartial with
  | Except.error _ => (Except.error "Failed to save settings", s)
  | Except.ok _ => (Except.ok (), { s with settings := some settings.toPartial })

/-- The character class stripped by JavaScript `String.prototype.trim`
(the common WhiteSpace and LineTerminator code points). -/
def isJsWhitespace (c : Char) : Bool :=
  c = ' ' || c = '\t' || c = '\n' || c = '\r' || c = '\x0b' || c = '\x0c'

/-- JavaScript `s.trim()`: strip leading and trailing whitespace. -/
def jsTrim (s : String) : String :=
  ⟨((s.data.dropWhile isJsWhitespace).reverse.dropWhile isJsWhitespace).reverse⟩

/-- `validatePostText` from `utils/validation.ts`.  The source's `!text`
test on a string is true exactly for the empty string (the `typeof` test
cannot fail in a typed embedding). -/
def validatePostText (text : String) : Except String Unit :=
  if text.length = 0 then
    Except.error "Post text must be a non-empty string"
  else
    let trimmed := jsTrim text
    if trimmed.length = 0 then
      Except.error "Post text cannot be empty"
    else if trimmed.length < 5 then
      Except.error "Post text is too short (minimum 5 characters)"
    else if trimmed.length > 10000 then
      Except.error "Post text is too long (maximum 10000 characters)"
    else
      Except.ok ()

/-- Does the character list `l` start with `p`?  (Helper for the JavaScript
`String.prototype.includes` test used by the service worker.) -/
def listStarts : List Char → List Char → Bool
  | _, [] => true
  | [], _ :: _ => false
  | a :: as, b :: bs => a == b && listStarts as bs

/-- Does the character list `l` contain `p` as a contiguous run? -/
def listHasSub (l p : List Char) : Bool :=
  listStarts l p ||
    match l with
    | [] => false
    | _ :: as => listHasSub as p

/-- JavaScript `s.includes(pat)`: substring containment. -/
def jsIncludes (s pat : String) : Bool :=
  listHasSub s.data pat.data

/-- `GenerateReplyResponse` from `types/index.ts`; optional fields are
`none` when the source's object literal omits them. -/
structure GenerateReplyResponse where
  success : Bool
  reply : Option String := none
  error : Option String := none
  usageCount : Option Int := none
  rateLimitReached : Option Bool := none
deriving Repr, DecidableEq

/-- The error response built by `handleGenerateReply`'s `catch` block:
`success: false`, the error message, and `rateLimitReached` from an
`error.message.includes("Rate limit")` test. -/
def errorResponse (e : String) : GenerateReplyResponse :=
  { success := false
    error := some e
    rateLimitReached := some (jsIncludes e "Rate limit") }

/-- `handleGenerateReply` from `serviceWorker.ts`.  Steps in source order:
validate the post text, sanitize it, load settings, reject when no API key
is configured, consume one usage unit (`trackUsage`), call the external
generator, and shape the response.  `sanitize` stands for
`sanitizePostText` and `gen` for `callGeminiAPI` (both live in
`utils/api.ts`, outside the analysed sources); any thrown error is caught
and shaped by `errorResponse`, and writes performed before the throw are
kept. -/
def handleGenerateReply (sanitize : String → String)
    (gen : String → UserSettings → Except String String)
    (now : Nat) (postText : String) (s : Store) :
    GenerateReplyResponse × Store :=
  match validatePostText postText with
  | Except.error e => (errorResponse e, s)
  | Except.ok _ =>
    let sanitized := sanitize postText
    let settings := getSettings s
    if (jsTrim settings.apiKey).length = 0 then
      (errorResponse "API key not configured", s)
    else
      match trackUsage now s with
      | (Except.error e, s₁) => (errorResponse e, s₁)
      | (Except.ok usage, s₁) =>
        match gen sanitized settings with
        | Except.error e => (errorResponse e, s₁)
        | Except.ok reply =>
          ({ success := true
             reply := some reply
             usageCount := some usage.count
             rateLimitReached := some false }, s₁)

/-!
### The injection engine

`injectButtons` (contentScript.ts) walks every element matching the
comment-box selector; a box whose subtree already holds a `.ai-reply-btn`
(`hasButtonInjected`, utils/dom.ts) is skipped, otherwise one button is
appended at `findInsertionPoint` — a toolbar, form, or the box itself, in
every case a descendant of the box.  A comment box is therefore embedded as
the number of `.ai-reply-btn` descendants it holds, and the page as the
list of comment boxes the selector finds.
-/

/-- One comment box, abstracted to the count of `.ai-reply-btn` elements in
its subtree. -/
structure CommentBox where
  buttons : Nat
deriving Repr, DecidableEq

/-- `hasButtonInjected` from `utils/dom.ts`: `querySelector(".ai-reply-btn")
!== null`. -/
def hasButtonInjected (b : CommentBox) : Bool :=
  b.buttons ≠ 0

/-- The body of `injectButtons`'s `forEach`: skip a box that already has a
button, otherwise append exactly one button inside it. -/
def injectIntoBox (b : CommentBox) : CommentBox :=
  if hasButtonInjected b then b else { b with buttons := b.buttons + 1 }

/-- `injectButtons` from `contentScript.ts`: one scan pass over every
comment box on the page. -/
def injectButtons (dom : List CommentBox) : List CommentBox :=
  dom.map injectIntoBox

/-- `n` scan passes over an unchanged page. -/
def iterateInject : Nat → List CommentBox → List CommentBox
  | 0, dom => dom
  | n + 1, dom => iterateInject n (injectButtons dom)

/-- The store after a sequence of `n` `trackUsage` calls at time `now`
(each call keeps whatever it wrote, whether it returned or threw). -/
def iterateTrack (now : Nat) : Nat → Store → Store
  | 0, s => s
  | n + 1, s => iterateTrack now n (trackUsage now s).2

/-- The persisted usage count after `n` `trackUsage` calls (0 when no
record is stored). -/
def usageCountAfter (now n : Nat) (s : Store) : Int :=
  match (iterateTrack now n s).usage with
  | some u => u.count
  | none => 0

/-!
## Helper lemmas
-/

lemma getUsage_some (now : Nat) (s : Store) (u : UsageData)
    (hf : s.localGetFails = false) (hs : s.usage = some u) :
    getUsage now s = (u, s) := by
  simp [getUsage, hf, hs]

lemma resetUsageIfExpired_not_expired (now : Nat) (s : Store) (u : UsageData)
    (hf : s.localGetFails = false) (hs : s.usage = some u)
    (hw : now < u.resetDate) :
    resetUsageIfExpired now s = (u, s) := by
  unfold resetUsageIfExpired
  rw [getUsage_some now s u hf hs]
  simp [Nat.not_le.mpr hw]

lemma resetUsageIfExpired_expired (now : Nat) (s : Store) (u : UsageData)
    (hf : s.localGetFails = false) (hs : s.usage = some u)
    (he : u.resetDate ≤ now) :
    resetUsageIfExpired now s =
      (⟨0, now + dayMs, (getSettings s).rateLimit⟩,
       saveUsage ⟨0, now + dayMs, (getSettings s).rateLimit⟩ s) := by
  unfold resetUsageIfExpired
  rw [getUsage_some now s u hf hs]
  simp [he]

lemma trackUsage_ok (now : Nat) (s : Store) (u : UsageData)
    (hf : s.localGetFails = false) (hs : s.usage = some u)
    (hw : now < u.resetDate) (hcl : u.count < u.limit) :
    trackUsage now s =
      (Except.ok { u with count := u.count + 1 },
       saveUsage { u with count := u.count + 1 } s) := by
  unfold trackUsage
  rw [resetUsageIfExpired_not_expired now s u hf hs hw]
  simp [not_le.mpr hcl]

lemma trackUsage_denied (now : Nat) (s : Store) (u : UsageData)
    (hf : s.localGetFails = false) (hs : s.usage = some u)
    (hw : now < u.resetDate) (hcl : u.limit ≤ u.count) :
    trackUsage now s = (Except.error (rateLimitMessage now u), s) := by
  unfold trackUsage
  rw [resetUsageIfExpired_not_expired now s u hf hs hw]
  simp [hcl]

lemma validatePostText_ok_bounds (text : String)
    (h : validatePostText text = Except.ok ()) :
    5 ≤ (jsTrim text).length ∧ (jsTrim text).length ≤ 10000 := by
  simp only [validatePostText] at h
  split_ifs at h <;> simp_all

lemma listStarts_append (l r p : List Char) (h : listStarts l p = true) :
    listStarts (l ++ r) p = true := by
  induction p generalizing l with
  | nil => simp [listStarts]
  | cons b bs ih =>
    cases l with
    | nil => simp [listStarts] at h
    | cons a as =>
      simp only [listStarts, Bool.and_eq_true] at h ⊢
      exact ⟨h.1, ih as h.2⟩

lemma listHasSub_of_starts (l p : List Char) (h : listStarts l p = true) :
    listHasSub l p = true := by
  unfold listHasSub
  simp [h]

/-- A string beginning with `"Rate limit"` contains it as a substring, no
matter what follows. -/
lemma jsIncludes_rateLimitMessage (now : Nat) (u : UsageData) :
    jsIncludes (rateLimitMessage now u) "Rate limit" = true := by
  unfold jsIncludes rateLimitMessage
  apply listHasSub_of_starts
  simp only [String.data_append, ← List.append_assoc]
  apply listStarts_append
  apply listStarts_append
  apply listStarts_append
  apply listStarts_append
  exact listStarts_append ("Rate limit".data) _ _ (by decide)

/-!
## Claim theorems
-/

/-- C7: settings validation accepts and rejects exactly at the documented
boundaries: `maxLength = 99` is rejected, `100` and `1000` are accepted,
`1001` is rejected; `rateLimit = 0` is rejected and `1` is accepted. -/
theorem validation_boundaries :
    validateSettings ({ DEFAULT_SETTINGS with maxLength := 99 }).toPartial =
      Except.error "Max length must be between 100 and 1000 characters" ∧
    validateSettings ({ DEFAULT_SETTINGS with maxLength := 100 }).toPartial =
      Except.ok () ∧
    validateSettings ({ DEFAULT_SETTINGS with maxLength := 1000 }).toPartial =
      Except.ok () ∧
    validateSettings ({ DEFAULT_SETTINGS with maxLength := 1001 }).toPartial =
      Except.error "Max length must be between 100 and 1000 characters" ∧
    validateSettings ({ DEFAULT_SETTINGS with rateLimit := 0 }).toPartial =
      Except.error "Rate limit must be between 1 and 10000" ∧
    validateSettings ({ DEFAULT_SETTINGS with rateLimit := 1 }).toPartial =
      Except.ok () :=
  ⟨rfl, rfl, rfl, rfl, rfl, rfl⟩

/-- C9: when no usage record is stored, or the storage read fails, `getUsage`
returns a fresh default record `{count := 0, windowEnd := now + 24h,
limit := 50}` — the hard-coded `DEFAULT_SETTINGS.rateLimit`, not the saved
preference — and does not persist it (the store is unchanged). -/
theorem getUsage_default_unpersisted (now : Nat) (s : Store)
    (h : s.usage = none ∨ s.localGetFails = true) :
    (getUsage now s).1 =
      { count := 0, resetDate := now + dayMs, limit := DEFAULT_SETTINGS.rateLimit } ∧
    (getUsage now s).2 = s ∧
    DEFAULT_SETTINGS.rateLimit = 50 := by
  rcases h with h | h <;> simp [getUsage, h, DEFAULT_SETTINGS]

/-- A concrete store for witnesses: saved settings carry `rateLimit = 7`,
no usage record is stored, and storage reads succeed. -/
def storeNoUsage : Store :=
  ⟨some ⟨none, none, none, none, some 7, none⟩, none, false⟩

/-- Witness for C9: a store whose settings carry `rateLimit = 7` but hold no
usage record still yields the hard-coded default `limit = 50`, unpersisted. -/
theorem getUsage_default_unpersisted_witness :
    (storeNoUsage.usage = none ∨ storeNoUsage.localGetFails = true) ∧
    ((getUsage 1000 storeNoUsage).1 =
      { count := 0, resetDate := 1000 + dayMs, limit := DEFAULT_SETTINGS.rateLimit } ∧
     (getUsage 1000 storeNoUsage).2 = storeNoUsage ∧
     DEFAULT_SETTINGS.rateLimit = 50) :=
  ⟨Or.inl rfl, getUsage_default_unpersisted 1000 storeNoUsage (Or.inl rfl)⟩

/-- C6: for a settings record passing validation, `saveSettings` then
`getSettings` returns the saved record merged over the defaults (which, the
record being full, is the record itself); `saveSettings` validates before
persisting, so an invalid record leaves the store untouched. -/
theorem settings_roundtrip (r : UserSettings) (s : Store) :
    (validateSettings r.toPartial = Except.ok () →
      (saveSettings r s).1 = Except.ok () ∧
      getSettings (saveSettings r s).2 = mergeDefaults r.toPartial ∧
      mergeDefaults r.toPartial = r) ∧
    (∀ e, validateSettings r.toPartial = Except.error e →
      (saveSettings r s).2 = s) := by
  constructor
  · intro h
    refine ⟨?_, ?_, ?_⟩
    · simp [saveSettings, h]
    · simp [saveSettings, h, getSettings]
    · simp [mergeDefaults, UserSettings.toPartial]
  · intro e h
    simp [saveSettings, h]

/-- Witness for C6: a concrete valid record (non-default key and
`maxLength`) passes validation and round-trips through the store. -/
theorem settings_roundtrip_witness :
    (saveSettings { DEFAULT_SETTINGS with apiKey := "0123456789abc", maxLength := 250 }
        { settings := none, usage := none, localGetFails := false }).1 = Except.ok () ∧
    getSettings (saveSettings
        { DEFAULT_SETTINGS with apiKey := "0123456789abc", maxLength := 250 }
        { settings := none, usage := none, localGetFails := false }).2 =
      mergeDefaults ({ DEFAULT_SETTINGS with apiKey := "0123456789abc", maxLength := 250 }).toPartial ∧
    mergeDefaults ({ DEFAULT_SETTINGS with apiKey := "0123456789abc", maxLength := 250 }).toPartial =
      { DEFAULT_SETTINGS with apiKey := "0123456789abc", maxLength := 250 } :=
  (settings_roundtrip { DEFAULT_SETTINGS with apiKey := "0123456789abc", maxLength := 250 }
    { settings := none, usage := none, localGetFails := false }).1 rfl

/-- A concrete store for witnesses: a configured API key, and a stored
usage record at 3 of 5 with the window ending at time 1000000. -/
def storeReady : Store :=
  ⟨some ⟨some "0123456789abc", none, none, none, none, none⟩,
   some ⟨3, 1000000, 5⟩, false⟩

/-- C3: a request whose source text trims to under 5 or over 10000
characters, or a request made with no API credential configured, fails
without touching the usage ledger — the store (hence the persisted usage
count) is unchanged. -/
theorem gateway_rejects_before_ledger
    (sanitize : String → String) (gen : String → UserSettings → Except String String)
    (now : Nat) (postText : String) (s : Store)
    (h : (jsTrim postText).length < 5 ∨ 10000 < (jsTrim postText).length ∨
      (jsTrim (getSettings s).apiKey).length = 0) :
    (handleGenerateReply sanitize gen now postText s).2 = s ∧
    (handleGenerateReply sanitize gen now postText s).1.success = false := by
  cases hv : validatePostText postText with
  | error e => simp [handleGenerateReply, hv, errorResponse]
  | ok u =>
    cases u
    have hb := validatePostText_ok_bounds postText hv
    have hk : (jsTrim (getSettings s).apiKey).length = 0 := by
      rcases h with h | h | h
      · omega
      · omega
      · exact h
    simp [handleGenerateReply, hv, hk, errorResponse]

/-- Witness for C3: the text `"hi"` is too short; the request fails and the
stored 3-of-5 usage record is untouched. -/
theorem gateway_rejects_before_ledger_witness :
    ((jsTrim "hi").length < 5 ∨ 10000 < (jsTrim "hi").length ∨
      (jsTrim (getSettings storeReady).apiKey).length = 0) ∧
    ((handleGenerateReply id (fun _ _ => Except.ok "reply") 5 "hi" storeReady).2 =
        storeReady ∧
      (handleGenerateReply id (fun _ _ => Except.ok "reply") 5 "hi" storeReady).1.success =
        false) :=
  ⟨Or.inl (by decide),
   gateway_rejects_before_ledger id (fun _ _ => Except.ok "reply") 5 "hi" storeReady
     (Or.inl (by decide))⟩

/-- C10: every failure reported by the gateway carries
`rateLimitReached = error message includes "Rate limit"` — the
classification is purely that substring test, whatever threw the error. -/
theorem rate_limit_flag_by_substring
    (sanitize : String → String) (gen : String → UserSettings → Except String String)
    (now : Nat) (postText : String) (s : Store)
    (h : (handleGenerateReply sanitize gen now postText s).1.success = false) :
    ∃ e, (handleGenerateReply sanitize gen now postText s).1.error = some e ∧
      (handleGenerateReply sanitize gen now postText s).1.rateLimitReached =
        some (jsIncludes e "Rate limit") := by
  cases hv : validatePostText postText with
  | error e =>
    refine ⟨e, ?_, ?_⟩ <;> simp [handleGenerateReply, hv, errorResponse]
  | ok u =>
    cases u
    by_cases hk : (jsTrim (getSettings s).apiKey).length = 0
    · refine ⟨"API key not configured", ?_, ?_⟩ <;>
        simp [handleGenerateReply, hv, hk, errorResponse]
    · rcases htu : trackUsage now s with ⟨e | usage, s₁⟩
      · refine ⟨e, ?_, ?_⟩ <;>
          simp [handleGenerateReply, hv, hk, htu, errorResponse]
      · cases hg : gen (sanitize postText) (getSettings s) with
        | error e =>
          refine ⟨e, ?_, ?_⟩ <;>
            simp [handleGenerateReply, hv, hk, htu, hg, errorResponse]
        | ok reply =>
          exfalso
          simp [handleGenerateReply, hv, hk, htu, hg] at h

/-- Witness for C10: a provider failure whose message happens to contain
`"Rate limit"` is reported with the rate-limit flag set even though the
quota was not exhausted. -/
theorem rate_limit_flag_by_substring_witness :
    (handleGenerateReply id (fun _ _ => Except.error "Provider: Rate limit hit") 5
        "Great insights on leadership!" storeReady).1.success = false ∧
    ∃ e, (handleGenerateReply id (fun _ _ => Except.error "Provider: Rate limit hit") 5
        "Great insights on leadership!" storeReady).1.error = some e ∧
      (handleGenerateReply id (fun _ _ => Except.error "Provider: Rate limit hit") 5
        "Great insights on leadership!" storeReady).1.rateLimitReached =
        some (jsIncludes e "Rate limit") :=
  ⟨by decide,
   rate_limit_flag_by_substring id (fun _ _ => Except.error "Provider: Rate limit hit") 5
     "Great insights on leadership!" storeReady (by decide)⟩

/-- The shape the spec asserts for the remaining-time string when the
remaining time is positive: hours and minutes. -/
def isHoursMinutesFormat (s : String) : Prop :=
  ∃ h m : Nat, s = toString h ++ "h " ++ toString m ++ "m"

/-- C5, counterexample: with one minute remaining (`now = 0`,
`resetDate = 60000`) the remaining time is positive yet the string is
`"1m"`, which is not an hours+minutes string. -/
theorem remaining_time_not_hours_minutes :
    getTimeUntilReset 0 60000 = "1m" ∧ (0 : Nat) < 60000 ∧
    ¬ isHoursMinutesFormat (getTimeUntilReset 0 60000) := by
  refine ⟨rfl, by decide, ?_⟩
  rintro ⟨a, b, heq⟩
  have h1 : ("1m" : String) = toString a ++ "h " ++ toString b ++ "m" := heq
  have h2 := congrArg String.data h1
  simp only [String.data_append] at h2
  have h3 : 'h' ∈ (toString a).data ++ ['h', ' '] ++ (toString b).data ++ ['m'] :=
    List.mem_append_left _ (List.mem_append_left _
      (List.mem_append_right _ (by decide)))
  rw [← h2] at h3
  exact absurd h3 (by decide)

/-- C5, amended: on quota denial the gateway answers `success := false`
with `rateLimitReached = some true` and the thrown rate-limit message; the
remaining-time string inside it is `"now"` when the remaining time is ≤ 0,
hours+minutes when at least one hour remains, minutes only when between one
minute and one hour remains, and seconds otherwise. -/
theorem rate_limit_denial_shape
    (sanitize : String → String) (gen : String → UserSettings → Except String String)
    (now : Nat) (postText : String) (s : Store) (u : UsageData)
    (hf : s.localGetFails = false) (hs : s.usage = some u)
    (hw : now < u.resetDate) (hcl : u.limit ≤ u.count)
    (hv : validatePostText postText = Except.ok ())
    (hk : (jsTrim (getSettings s).apiKey).length ≠ 0) :
    ((handleGenerateReply sanitize gen now postText s).1.success = false ∧
     (handleGenerateReply sanitize gen now postText s).1.rateLimitReached = some true ∧
     (handleGenerateReply sanitize gen now postText s).1.error =
       some (rateLimitMessage now u)) ∧
    (∀ t r : Nat, r ≤ t → getTimeUntilReset t r = "now") ∧
    (∀ t r : Nat, t + 3600000 ≤ r → isHoursMinutesFormat (getTimeUntilReset t r)) ∧
    (∀ t r : Nat, t + 60000 ≤ r → r < t + 3600000 →
      ∃ m : Nat, getTimeUntilReset t r = toString m ++ "m") ∧
    (∀ t r : Nat, t < r → r < t + 60000 →
      ∃ q : Nat, getTimeUntilReset t r = toString q ++ "s") := by
  have htu := trackUsage_denied now s u hf hs hw hcl
  refine ⟨?_, ?_, ?_, ?_, ?_⟩
  · have hrl := jsIncludes_rateLimitMessage now u
    simp [handleGenerateReply, hv, hk, htu, errorResponse, hrl]
  · intro t r h
    simp [getTimeUntilReset, h]
  · intro t r h
    refine ⟨(r - t) / (1000 * 60 * 60), (r - t) % (1000 * 60 * 60) / (1000 * 60), ?_⟩
    have h1 : ¬ r ≤ t := by omega
    have h2 : 0 < (r - t) / (1000 * 60 * 60) :=
      Nat.div_pos (by omega) (by norm_num)
    simp [getTimeUntilReset, h1, h2]
  · intro t r h1 h2
    refine ⟨(r - t) % (1000 * 60 * 60) / (1000 * 60), ?_⟩
    have ha : ¬ r ≤ t := by omega
    have hb : (r - t) / (1000 * 60 * 60) = 0 := Nat.div_eq_of_lt (by omega)
    have hm : (r - t) % (1000 * 60 * 60) = r - t := Nat.mod_eq_of_lt (by omega)
    have hc : 0 < (r - t) % (1000 * 60 * 60) / (1000 * 60) := by
      rw [hm]
      exact Nat.div_pos (by omega) (by norm_num)
    simp [getTimeUntilReset, ha, hb, hc]
  · intro t r h1 h2
    refine ⟨(r - t) / 1000, ?_⟩
    have ha : ¬ r ≤ t := by omega
    have hb : (r - t) / (1000 * 60 * 60) = 0 := Nat.div_eq_of_lt (by omega)
    have hm : (r - t) % (1000 * 60 * 60) = r - t := Nat.mod_eq_of_lt (by omega)
    have hc : (r - t) % (1000 * 60 * 60) / (1000 * 60) = 0 := by
      rw [hm]
      exact Nat.div_eq_of_lt (by omega)
    simp [getTimeUntilReset, ha, hb, hc]

/-- A concrete store for witnesses: a configured API key and an exhausted
usage record (5 of 5) inside its window. -/
def storeExhausted : Store :=
  ⟨some ⟨some "0123456789abc", none, none, none, none, none⟩,
   some ⟨5, 1000000, 5⟩, false⟩

/-- Witness for amended C5: at count = limit = 5 the concrete denial
response has `success = false`, `rateLimitReached = some true`, and carries
the rate-limit message. -/
theorem rate_limit_denial_shape_witness :
    (storeExhausted.localGetFails = false ∧
      storeExhausted.usage = some ⟨5, 1000000, 5⟩ ∧
      5 < (1000000 : Nat) ∧ (5 : Int) ≤ 5 ∧
      validatePostText "Great insights on leadership!" = Except.ok () ∧
      (jsTrim (getSettings storeExhausted).apiKey).length ≠ 0) ∧
    (((handleGenerateReply id (fun _ _ => Except.ok "reply") 5
        "Great insights on leadership!" storeExhausted).1.success = false ∧
      (handleGenerateReply id (fun _ _ => Except.ok "reply") 5
        "Great insights on leadership!" storeExhausted).1.rateLimitReached = some true ∧
      (handleGenerateReply id (fun _ _ => Except.ok "reply") 5
        "Great insights on leadership!" storeExhausted).1.error =
        some (rateLimitMessage 5 ⟨5, 1000000, 5⟩)) ∧
     (∀ t r : Nat, r ≤ t → getTimeUntilReset t r = "now") ∧
     (∀ t r : Nat, t + 3600000 ≤ r → isHoursMinutesFormat (getTimeUntilReset t r)) ∧
     (∀ t r : Nat, t + 60000 ≤ r → r < t + 3600000 →
       ∃ m : Nat, getTimeUntilReset t r = toString m ++ "m") ∧
     (∀ t r : Nat, t < r → r < t + 60000 →
       ∃ q : Nat, getTimeUntilReset t r = toString q ++ "s")) :=
  ⟨⟨rfl, rfl, by decide, by decide, rfl, by decide⟩,
   rate_limit_denial_shape id (fun _ _ => Except.ok "reply") 5
     "Great insights on leadership!" storeExhausted ⟨5, 1000000, 5⟩
     rfl rfl (by decide) (by decide) rfl (by decide)⟩

/-- C2: on a stored record whose window has expired (`resetDate ≤ now`),
`resetUsageIfExpired` returns and persists a record with `count = 0`,
`resetDate = now + 24h` and the limit refreshed from settings; `trackUsage`
(consuming) returns and persists that record with `count = 1`, provided the
effective rate limit is at least 1 (every saved settings record satisfies
this, by validation). -/
theorem window_rollover
    (now : Nat) (s : Store) (u : UsageData)
    (hf : s.localGetFails = false) (hs : s.usage = some u)
    (he : u.resetDate ≤ now) :
    ((resetUsageIfExpired now s).1 =
       { count := 0, resetDate := now + dayMs, limit := (getSettings s).rateLimit } ∧
     (resetUsageIfExpired now s).2.usage = some (resetUsageIfExpired now s).1) ∧
    (1 ≤ (getSettings s).rateLimit →
      ∃ r s₂, trackUsage now s = (Except.ok r, s₂) ∧
        r.count = 1 ∧ r.resetDate = now + dayMs ∧ s₂.usage = some r) := by
  have hre := resetUsageIfExpired_expired now s u hf hs he
  constructor
  · rw [hre]
    exact ⟨rfl, rfl⟩
  · intro hl
    refine ⟨⟨1, now + dayMs, (getSettings s).rateLimit⟩,
      saveUsage ⟨1, now + dayMs, (getSettings s).rateLimit⟩ s, ?_, rfl, rfl, rfl⟩
    unfold trackUsage
    rw [hre]
    simp only []
    rw [if_neg (by simp; omega)]
    simp [saveUsage]

/-- A concrete store for witnesses: a configured API key and an expired
usage record (4 of 5, window ended at 100) read at time 500. -/
def storeExpired : Store :=
  ⟨some ⟨some "0123456789abc", none, none, none, none, none⟩,
   some ⟨4, 100, 5⟩, false⟩

/-- Witness for C2: at time 500 the expired 4-of-5 record rolls over to a
fresh window; consuming yields `count = 1` and persists the record. -/
theorem window_rollover_witness :
    (storeExpired.localGetFails = false ∧
      storeExpired.usage = some ⟨4, 100, 5⟩ ∧ (100 : Nat) ≤ 500) ∧
    (((resetUsageIfExpired 500 storeExpired).1 =
        { count := 0, resetDate := 500 + dayMs,
          limit := (getSettings storeExpired).rateLimit } ∧
      (resetUsageIfExpired 500 storeExpired).2.usage =
        some (resetUsageIfExpired 500 storeExpired).1) ∧
     (1 ≤ (getSettings storeExpired).rateLimit →
       ∃ r s₂, trackUsage 500 storeExpired = (Except.ok r, s₂) ∧
         r.count = 1 ∧ r.resetDate = 500 + dayMs ∧ s₂.usage = some r)) :=
  ⟨⟨rfl, rfl, by decide⟩,
   window_rollover 500 storeExpired ⟨4, 100, 5⟩ rfl rfl (by decide)⟩

lemma injectIntoBox_idem (b : CommentBox) :
    injectIntoBox (injectIntoBox b) = injectIntoBox b := by
  unfold injectIntoBox hasButtonInjected
  split_ifs with h1 h2 <;> simp_all

lemma injectButtons_idem (dom : List CommentBox) :
    injectButtons (injectButtons dom) = injectButtons dom := by
  unfold injectButtons
  rw [List.map_map]
  exact List.map_congr_left fun b _ => injectIntoBox_idem b

lemma iterateInject_eq (n : Nat) (hn : 1 ≤ n) (dom : List CommentBox) :
    iterateInject n dom = injectButtons dom := by
  induction n generalizing dom with
  | zero => omega
  | succ n ih =>
    cases Nat.eq_or_lt_of_le hn with
    | inl h =>
      cases h
      rfl
    | inr h =>
      show iterateInject n (injectButtons dom) = injectButtons dom
      rw [ih (by omega), injectButtons_idem]

/-- C8: the scan pass is idempotent — for any `n ≥ 1`, `n` passes over an
unchanged page equal one pass, and when every comment box starts with at
most one injected control, every box ends with exactly one. -/
theorem inject_idempotent (dom : List CommentBox) (n : Nat) (hn : 1 ≤ n) :
    iterateInject n dom = injectButtons dom ∧
    ((∀ b ∈ dom, b.buttons ≤ 1) → ∀ b ∈ iterateInject n dom, b.buttons = 1) := by
  refine ⟨iterateInject_eq n hn dom, ?_⟩
  intro hdom b hb
  rw [iterateInject_eq n hn dom] at hb
  obtain ⟨a, ha, rfl⟩ := List.mem_map.mp hb
  have hle := hdom a ha
  unfold injectIntoBox hasButtonInjected
  split_ifs with h <;> simp at h ⊢ <;> omega

/-- Witness for C8: three passes over a page with one fresh box and one
already-injected box leave exactly one control in each. -/
theorem inject_idempotent_witness :
    (1 : Nat) ≤ 3 ∧
    (iterateInject 3 [⟨0⟩, ⟨1⟩] = injectButtons [⟨0⟩, ⟨1⟩] ∧
     ((∀ b ∈ [(⟨0⟩ : CommentBox), ⟨1⟩], b.buttons ≤ 1) →
       ∀ b ∈ iterateInject 3 [(⟨0⟩ : CommentBox), ⟨1⟩], b.buttons = 1)) :=
  ⟨by decide, inject_idempotent [⟨0⟩, ⟨1⟩] 3 (by decide)⟩

/-- Closed form for repeated `trackUsage` inside one window: starting from a
stored record with `count ≤ limit`, after `n` calls the stored count is
`min (count + n) limit` and nothing else changes. -/
lemma iterateTrack_closed (now : Nat) (n : Nat) (s : Store) (u : UsageData)
    (hf : s.localGetFails = false) (hs : s.usage = some u)
    (hw : now < u.resetDate) (hc : u.count ≤ u.limit) :
    iterateTrack now n s =
      { s with usage := some { u with count := min (u.count + n) u.limit } } := by
  induction n generalizing s u with
  | zero =>
    have h1 : ({ u with count := min (u.count + (0 : Nat)) u.limit } : UsageData) = u := by
      cases u
      simp_all [min_eq_left]
    rw [iterateTrack, h1, ← hs]
  | succ n ih =>
    show iterateTrack now n (trackUsage now s).2 = _
    by_cases hlim : u.limit ≤ u.count
    · have hd := trackUsage_denied now s u hf hs hw hlim
      have heq : u.count = u.limit := le_antisymm hc hlim
      rw [hd, ih s u hf hs hw hc]
      simp only [Store.mk.injEq, Option.some.injEq, UsageData.mk.injEq,
        true_and, and_true]
      omega
    · push_neg at hlim
      have ho := trackUsage_ok now s u hf hs hw hlim
      rw [ho]
      have ih' := ih (saveUsage { u with count := u.count + 1 } s)
        { u with count := u.count + 1 } hf rfl hw (by simpa using hlim)
      rw [ih']
      simp only [saveUsage, Store.mk.injEq, Option.some.injEq, UsageData.mk.injEq,
        true_and, and_true]
      omega

/-- C1: within one window, the stored count after `n` `tryConsume` calls is
`min (initial + n) limit` — non-decreasing in `n` and never above the limit
— and once `limit` calls could have consumed it (`limit ≤ initial + n`),
the next call is denied and leaves the record unchanged; in particular,
starting from 0 the `(limit+1)`-th call is denied. -/
theorem quota_monotone
    (now n : Nat) (s : Store) (u : UsageData)
    (hf : s.localGetFails = false) (hs : s.usage = some u)
    (hw : now < u.resetDate) (hc : u.count ≤ u.limit) :
    usageCountAfter now n s = min (u.count + n) u.limit ∧
    (∀ m k : Nat, m ≤ k → usageCountAfter now m s ≤ usageCountAfter now k s) ∧
    (∀ m : Nat, usageCountAfter now m s ≤ u.limit) ∧
    (u.limit ≤ u.count + n →
      (∃ e, (trackUsage now (iterateTrack now n s)).1 = Except.error e) ∧
      (trackUsage now (iterateTrack now n s)).2 = iterateTrack now n s) := by
  have hcf : ∀ m : Nat, usageCountAfter now m s = min (u.count + m) u.limit := by
    intro m
    rw [usageCountAfter, iterateTrack_closed now m s u hf hs hw hc]
  refine ⟨hcf n, ?_, ?_, ?_⟩
  · intro m k hmk
    rw [hcf m, hcf k]
    omega
  · intro m
    rw [hcf m]
    omega
  · intro hreach
    have hN := iterateTrack_closed now n s u hf hs hw hc
    have hsN : (iterateTrack now n s).usage =
        some { u with count := min (u.count + n) u.limit } := by rw [hN]
    have hfN : (iterateTrack now n s).localGetFails = false := by rw [hN]; exact hf
    have hd := trackUsage_denied now (iterateTrack now n s)
      { u with count := min (u.count + n) u.limit } hfN hsN hw (by simp; omega)
    rw [hd]
    exact ⟨⟨_, rfl⟩, rfl⟩

/-- A concrete store for witnesses: no API key, a fresh usage record 0 of 2
with the window ending at 1000. -/
def storeFresh : Store := ⟨none, some ⟨0, 1000, 2⟩, false⟩

/-- Witness for C1: from 0 of 2, three calls at time 0 leave the count at
the limit 2 and the next call is denied without changing the record. -/
theorem quota_monotone_witness :
    (storeFresh.localGetFails = false ∧ storeFresh.usage = some ⟨0, 1000, 2⟩ ∧
      (0 : Nat) < 1000 ∧ (0 : Int) ≤ 2) ∧
    (usageCountAfter 0 3 storeFresh = min ((0 : Int) + (3 : Nat)) 2 ∧
     (∀ m k : Nat, m ≤ k → usageCountAfter 0 m storeFresh ≤ usageCountAfter 0 k storeFresh) ∧
     (∀ m : Nat, usageCountAfter 0 m storeFresh ≤ 2) ∧
     ((2 : Int) ≤ (0 : Int) + (3 : Nat) →
       (∃ e, (trackUsage 0 (iterateTrack 0 3 storeFresh)).1 = Except.error e) ∧
       (trackUsage 0 (iterateTrack 0 3 storeFresh)).2 = iterateTrack 0 3 storeFresh)) :=
  ⟨⟨rfl, rfl, by decide, by decide⟩,
   quota_monotone 0 3 storeFresh ⟨0, 1000, 2⟩ rfl rfl (by decide) (by decide)⟩

/-- C4: for a request passing the input and credential gates: when the
quota check succeeds the ledger is mutated exactly once — the persisted
count is the post-roll count plus one, the final store is the one
`trackUsage` produced whatever the generator then does (no rollback), and
the reported `usageCount` is the value of that consumption; when the quota
check is denied the response is independent of the generator (it is never
invoked). -/
theorem single_ledger_mutation
    (sanitize : String → String) (now : Nat) (postText : String) (s : Store)
    (hv : validatePostText postText = Except.ok ())
    (hk : (jsTrim (getSettings s).apiKey).length ≠ 0) :
    (∀ u s₁, trackUsage now s = (Except.ok u, s₁) →
      s₁.usage = some u ∧
      u.count = (resetUsageIfExpired now s).1.count + 1 ∧
      (∀ gen, (handleGenerateReply sanitize gen now postText s).2 = s₁) ∧
      (∀ gen reply, gen (sanitize postText) (getSettings s) = Except.ok reply →
        (handleGenerateReply sanitize gen now postText s).1.usageCount =
          some u.count)) ∧
    (∀ e s₁, trackUsage now s = (Except.error e, s₁) →
      ∀ gen gen' : String → UserSettings → Except String String,
        handleGenerateReply sanitize gen now postText s =
          handleGenerateReply sanitize gen' now postText s) := by
  constructor
  · intro u s₁ htu
    have htu0 := htu
    rcases hre : resetUsageIfExpired now s with ⟨r, sr⟩
    rw [trackUsage, hre] at htu
    simp only [] at htu
    by_cases hlim : r.limit ≤ r.count
    · rw [if_pos hlim] at htu
      exact absurd (congrArg Prod.fst htu) (by simp)
    · rw [if_neg hlim] at htu
      have hu : u = { r with count := r.count + 1 } :=
        (Except.ok.inj (congrArg Prod.fst htu)).symm
      have hs₁ : s₁ = saveUsage { r with count := r.count + 1 } sr :=
        (congrArg Prod.snd htu).symm
      refine ⟨by rw [hs₁, hu]; rfl, by simp [hu, hre], ?_, ?_⟩
      · intro gen
        cases hg : gen (sanitize postText) (getSettings s) with
        | error e => simp [handleGenerateReply, hv, hk, htu0, hg]
        | ok reply => simp [handleGenerateReply, hv, hk, htu0, hg]
      · intro gen reply hg
        simp [handleGenerateReply, hv, hk, htu0, hg]
  · intro e s₁ htu gen gen'
    simp [handleGenerateReply, hv, hk, htu, errorResponse]

/-- Witness for C4: from the 3-of-5 record the quota check succeeds, the
store ends at count 4, the generator result does not change the store, and
the success response reports `usageCount = 4`. -/
theorem single_ledger_mutation_witness :
    (validatePostText "Great insights on leadership!" = Except.ok () ∧
      (jsTrim (getSettings storeReady).apiKey).length ≠ 0) ∧
    ((∀ u s₁, trackUsage 5 storeReady = (Except.ok u, s₁) →
      s₁.usage = some u ∧
      u.count = (resetUsageIfExpired 5 storeReady).1.count + 1 ∧
      (∀ gen, (handleGenerateReply id gen 5 "Great insights on leadership!" storeReady).2 = s₁) ∧
      (∀ gen reply, gen (id "Great insights on leadership!") (getSettings storeReady) = Except.ok reply →
        (handleGenerateReply id gen 5 "Great insights on leadership!" storeReady).1.usageCount =
          some u.count)) ∧
     (∀ e s₁, trackUsage 5 storeReady = (Except.error e, s₁) →
       ∀ gen gen' : String → UserSettings → Except String String,
         handleGenerateReply id gen 5 "Great insights on leadership!" storeReady =
           handleGenerateReply id gen' 5 "Great insights on leadership!" storeReady)) :=
  ⟨⟨rfl, by decide⟩,
   single_ledger_mutation id 5 "Great insights on leadership!" storeReady rfl (by decide)⟩

end AiReply
